import Mathlib

/-
Verification of the Inceptia AI frontend (src/src/App.js) against its
natural-language specification.

The repository ships a single React component, `App`, that renders a chat
widget and talks to a backend chat endpoint.  We embed the decision logic of
that component shallowly:

* the similarity computation of the source list (App.js line 159),
* the title and link rendering of a source (App.js lines 160-179),
* the truncation of the source list to three entries (App.js line 158),
* the message-sending handler `handleSendMessage` (App.js lines 27-78),
  modelled as a pure function from the pre-call state and the outcome of the
  single `fetch` call to the post-call state and the request it issued.

The backend pipeline (retriever, confidence scorer, fallback policy) is not
part of the repository; where a claim is decided by it, the corresponding
definition is modelled from the spec and marked as such in its doc comment.

Numbers are modelled as rationals; JavaScript `undefined`/`null` fields are
modelled as `Option`.
-/

namespace Inceptia

/-- A source attached to a bot message, as consumed by the rendering code:
`title`, `url` and `distance` may each be absent (`undefined`/`null` in the
backend JSON), which we model with `Option`.  `filename` is only used for the
tooltip of a non-link source. -/
structure Source where
  title : Option String
  url : Option String
  distance : Option ℚ
  filename : Option String
deriving DecidableEq

/-- The JavaScript expression `source.distance || 0` (App.js line 159): an
absent (`undefined`/`null`) distance is falsy and is replaced by `0`; the
number `0` itself is also falsy, so it stays `0`. -/
def distOrZero : Option ℚ → ℚ
  | none => 0
  | some d => d

/-- The similarity shown for a source (App.js line 159):
`(1 - (source.distance || 0)) * 100`, with no further clamping. -/
def similarity (d : Option ℚ) : ℚ :=
  (1 - distOrZero d) * 100

/-- The condition under which a source is rendered as a hyperlink (App.js
line 161): `source.url && source.url !== 'Unknown' && source.url !== ''`.
An absent url and the empty string are falsy; the redundant final comparison
of the JavaScript expression is kept. -/
def hasUrl : Option String → Bool
  | none => false
  | some s => !(s = "") && !(s = "Unknown") && !(s = "")

/-- The title text shown for a source (App.js line 160):
`source.title?.substring(0, 40) + (source.title?.length > 40 ? "..." : "") || "Unknown"`.
When `title` is absent, optional chaining yields `undefined` and string
concatenation coerces it to the text `"undefined"`, which is truthy; when the
title is present the concatenation is falsy only if it is empty, in which case
`"Unknown"` is shown. -/
def titleText (s : Source) : String :=
  match s.title with
  | none => "undefined"
  | some t =>
      let shown := String.mk (t.toList.take 40) ++ (if 40 < t.length then "..." else "")
      if shown = "" then "Unknown" else shown

/-- The rendered form of one source entry: either a clickable hyperlink with
an href and a label, or plain text (App.js lines 163-179). -/
inductive SourceRender
  | link (href : String) (label : String)
  | plain (label : String)
deriving DecidableEq

/-- Rendering of one source entry (App.js lines 163-179): a hyperlink exactly
when `hasUrl` holds, plain text otherwise. -/
def renderSource (s : Source) : SourceRender :=
  if hasUrl s.url then .link (s.url.getD "") (titleText s) else .plain (titleText s)

/-- The list of sources actually displayed under a bot message
(App.js line 158): `message.sources.slice(0, 3)`. -/
def displayedSources (sources : List Source) : List Source :=
  sources.take 3

/-- Ascending order of two sources by the distance the rendering code uses. -/
def distLE (a b : Source) : Prop :=
  distOrZero a.distance ≤ distOrZero b.distance

instance : DecidableRel distLE := fun a b =>
  inferInstanceAs (Decidable (distOrZero a.distance ≤ distOrZero b.distance))

/-- Who authored a chat message. -/
inductive Sender
  | user
  | bot
deriving DecidableEq

/-- A chat message in the `messages` state list (App.js lines 4-11, 30-35,
54-60, 68-73).  User and error messages carry no sources. -/
structure Message where
  id : ℕ
  text : String
  sender : Sender
  sources : List Source
deriving DecidableEq

/-- The component state relevant to `handleSendMessage`: the message list,
the text of the input field and the loading flag. -/
structure AppState where
  messages : List Message
  inputValue : String
  isLoading : Bool
deriving DecidableEq

/-- The JSON body of the request issued to the chat endpoint (App.js
line 48): `JSON.stringify({ message: inputValue, max_results: 5 })`. -/
structure ChatRequest where
  message : String
  max_results : ℕ
deriving DecidableEq

/-- The field names of the request body, in the order they appear in the
object literal at App.js line 48. -/
def chatRequestFields : List String :=
  ["message", "max_results"]

/-- The request built from the current input text (App.js line 48). -/
def mkChatRequest (input : String) : ChatRequest :=
  { message := input, max_results := 5 }

/-- The fixed connectivity-error text appended when the fetch fails
(App.js line 70). -/
def connectivityErrorText : String :=
  "I\x27m sorry, I\x27m having trouble connecting to my knowledge base. Please make sure the backend server is running and try again."

/-- The outcome of the single `fetch` call in `handleSendMessage`: a
successful response with `response.ok` carrying the answer text and an
optional source list, a response with `response.ok` false, or a network
error thrown by `fetch` itself. -/
inductive FetchOutcome
  | ok (response : String) (sources : Option (List Source))
  | notOk
  | networkError
deriving DecidableEq

/-- The JavaScript `String.prototype.trim()`: removes whitespace from both
ends of the string.  Modelled on the character list so that it computes by
structural recursion. -/
def jsTrim (s : String) : String :=
  String.mk (((s.toList.dropWhile Char.isWhitespace).reverse.dropWhile Char.isWhitespace).reverse)

/-- The disabled condition of the Send button (App.js line 242):
`!inputValue.trim() || isLoading`. -/
def sendDisabled (st : AppState) : Bool :=
  (jsTrim st.inputValue == "") || st.isLoading

/-- Shallow embedding of `handleSendMessage` (App.js lines 27-78) as a pure
function.  `now` stands for `Date.now()`.  The guard at line 28 returns
without issuing a request when the trimmed input is empty or a request is in
flight.  Otherwise the user message is appended, the input cleared, the
loading flag set, and exactly one request is issued; on a successful
`response.ok` outcome a bot message with the response text and its sources
(`data.sources || []`) is appended, while a non-ok response or a network
error appends the fixed connectivity-error message; the `finally` block
clears the loading flag on every path. -/
def handleSendMessage (st : AppState) (now : ℕ) (outcome : FetchOutcome) :
    AppState × Option ChatRequest :=
  if jsTrim st.inputValue = "" ∨ st.isLoading = true then (st, none)
  else
    let userMessage : Message :=
      { id := now, text := st.inputValue, sender := .user, sources := [] }
    let st1 : AppState :=
      { messages := st.messages ++ [userMessage], inputValue := "", isLoading := true }
    let req := mkChatRequest st.inputValue
    match outcome with
    | .ok resp srcs =>
        let botMessage : Message :=
          { id := now + 1, text := resp, sender := .bot, sources := srcs.getD [] }
        ({ st1 with messages := st1.messages ++ [botMessage], isLoading := false }, some req)
    | .notOk =>
        let errorMessage : Message :=
          { id := now + 1, text := connectivityErrorText, sender := .bot, sources := [] }
        ({ st1 with messages := st1.messages ++ [errorMessage], isLoading := false }, some req)
    | .networkError =>
        let errorMessage : Message :=
          { id := now + 1, text := connectivityErrorText, sender := .bot, sources := [] }
        ({ st1 with messages := st1.messages ++ [errorMessage], isLoading := false }, some req)

/-- How many requests `handleSendMessage` issues for one send: the body has a
single `fetch` call and no retry loop, so the count is 1 when the guard
passes and 0 when it rejects the send. -/
def fetchAttempts (st : AppState) (now : ℕ) (outcome : FetchOutcome) : ℕ :=
  match (handleSendMessage st now outcome).2 with
  | none => 0
  | some _ => 1

/-- A passage returned by the backend retriever, as described by the spec
data model (spec section 3): passage metadata plus a non-negative distance,
lower meaning more similar. -/
structure RetrievedPassage where
  id : ℕ
  text : String
  title : String
  url : Option String
  topic : String
  distance : ℚ
deriving DecidableEq

/-- The low confidence threshold of the Fallback Policy (spec section 4.4,
example value 0.4). -/
def lowThreshold : ℚ := 2/5

/-- The high confidence threshold of the Fallback Policy (spec section 4.4,
example value 0.75). -/
def highThreshold : ℚ := 3/4

/-- The acceptance threshold on the best similarity used by the Confidence
Scorer (spec section 4.3, example value 0.55). -/
def acceptanceThreshold : ℚ := 11/20

/-- Modelled from the spec: the Confidence Scorer (spec section 4.3) lives in
the backend, which is not part of this repository.  Following the spec's
words: similarity is `1 − distance` per retrieved passage; the top-1
similarity is weighted higher than the mean of the rest; the score is
penalized when fewer than the requested `k` results were returned, and
penalized further when the best similarity falls below the acceptance
threshold; the result is kept in [0, 1]; and the score is exactly 0 when
`retrieved` is empty. -/
def score (k : ℕ) (retrieved : List RetrievedPassage) : ℚ :=
  match retrieved with
  | [] => 0
  | best :: rest =>
      let topSim := 1 - best.distance
      let restMean :=
        if rest = [] then topSim
        else (rest.map (fun p => 1 - p.distance)).sum / rest.length
      let base := (7/10) * topSim + (3/10) * restMean
      let countPenalty :=
        if rest.length + 1 < k then ((rest.length + 1 : ℕ) : ℚ) / k else 1
      let accPenalty := if topSim < acceptanceThreshold then 4/5 else 1
      max 0 (min 1 (base * countPenalty * accPenalty))

/-- The three states of the Fallback Policy (spec section 4.4). -/
inductive FallbackState
  | ANSWERABLE
  | HEDGE
  | REFUSE
deriving DecidableEq

/-- Modelled from the spec: the Fallback Policy (spec section 4.4) lives in
the backend, which is not part of this repository.  It is a pure function of
(confidence, retrieved-empty, topic): REFUSE when confidence is below the low
threshold, retrieval is empty, or the topic is off_topic; ANSWERABLE when
confidence reaches the high threshold (retrieval being non-empty in that
branch); HEDGE otherwise. -/
def fallbackState (confidence : ℚ) (retrievedEmpty : Bool) (topic : String) : FallbackState :=
  if confidence < lowThreshold ∨ retrievedEmpty = true ∨ topic = "off_topic" then .REFUSE
  else if highThreshold ≤ confidence then .ANSWERABLE
  else .HEDGE

/-- Modelled from the spec: the fixed apologetic message the Fallback Policy
returns on REFUSE (spec section 4.4); the backend holding the literal text is
not part of this repository, so the exact wording is a placeholder — the spec
only requires it to be fixed and distinct from the connectivity-error
message. -/
def refuseText : String :=
  "I\x27m sorry, but I cannot answer that question from the documents I have."

/-- One source entry of an Answer, per the spec data model (spec section 3). -/
structure AnswerSource where
  title : String
  url : Option String
  topic : String
  similarity_percent : ℚ
deriving DecidableEq

/-- An Answer as assembled by the backend, per the spec data model (spec
section 3); `usedCompletion` records whether the completion service was
called. -/
structure Answer where
  response_text : String
  confidence : ℚ
  sources : List AnswerSource
  usedCompletion : Bool
deriving DecidableEq

/-- Modelled from the spec: response assembly (spec sections 2, 4.4 and 4.5)
lives in the backend, which is not part of this repository.  On REFUSE the
completion service is skipped entirely and the fixed apologetic message is
returned with empty sources and the measured confidence; otherwise the
completion text is returned together with at most 3 sources derived from the
retrieved passages. -/
def assembleAnswer (k : ℕ) (retrieved : List RetrievedPassage) (topic : String)
    (completionText : String) : Answer :=
  let c := score k retrieved
  if fallbackState c retrieved.isEmpty topic = .REFUSE then
    { response_text := refuseText, confidence := c, sources := [], usedCompletion := false }
  else
    { response_text := completionText
      confidence := c
      sources := (retrieved.take 3).map
        (fun p => { title := p.title, url := p.url, topic := p.topic,
                    similarity_percent := (1 - p.distance) * 100 })
      usedCompletion := true }

/-- Claim C1 (counterexample): the displayed similarity is not clamped to
[0, 100]: a source with distance 2 is shown with similarity −100, a negative
percentage. -/
theorem clamp_claim_false : ¬ (0 ≤ similarity (some 2)) := by
  norm_num [similarity, distOrZero]

/-- Claim C1 (amended): the shown similarity equals `(1 − distance) × 100`
with an absent distance treated as 0, and the result is not clamped: any
distance greater than 1 yields a negative percentage and any negative distance
yields one above 100. -/
theorem similarity_unclamped (d e : ℚ) (hd : 1 < d) (he : e < 0) :
    similarity (some d) = (1 - d) * 100 ∧ similarity (some d) < 0 ∧
    similarity (some e) = (1 - e) * 100 ∧ 100 < similarity (some e) := by
  refine ⟨rfl, ?_, rfl, ?_⟩
  · unfold similarity distOrZero
    nlinarith
  · unfold similarity distOrZero
    nlinarith

/-- Witness for `similarity_unclamped` at distances 2 and −1. -/
theorem similarity_unclamped_witness :
    similarity (some 2) = (1 - 2) * 100 ∧ similarity (some 2) < 0 ∧
    similarity (some (-1)) = (1 - (-1)) * 100 ∧ 100 < similarity (some (-1)) :=
  similarity_unclamped 2 (-1) (by norm_num) (by norm_num)

/-- Claim C9: a source whose distance is absent (`undefined` or `null`,
modelled as `none`) or equal to 0 is shown with similarity exactly 100, and an
absent distance is indistinguishable from a perfect match of distance 0. -/
theorem missing_distance_full_similarity :
    similarity none = 100 ∧ similarity (some 0) = 100 ∧
    similarity none = similarity (some 0) := by
  norm_num [similarity, distOrZero]

/-- Claim C10: a source is rendered as a clickable hyperlink if and only if
its url field is present, non-empty, and not the literal string "Unknown";
otherwise its title is rendered as plain text. -/
theorem link_iff_real_url (s : Source) :
    (∃ href, renderSource s = .link href (titleText s)) ↔
      (∃ u, s.url = some u ∧ u ≠ "" ∧ u ≠ "Unknown") := by
  unfold renderSource
  rcases hu : s.url with _ | u
  · simp [hasUrl, hu]
  · by_cases h1 : u = ""
    · simp [hasUrl, hu, h1]
    · by_cases h2 : u = "Unknown"
      · simp [hasUrl, hu, h1, h2]
      · simp [hasUrl, hu, h1, h2]

/-- Claim C2: the displayed source list has at most 3 entries, is an
order-preserving truncation (a list-prefix) of the source list the backend
returned for the query, and, provided that list is sorted by ascending
distance (the retriever guarantee of the spec; the retriever itself is not in
the repository), is itself sorted by ascending distance. -/
theorem displayed_sources_spec (l : List Source)
    (hsorted : List.Pairwise distLE l) :
    (displayedSources l).length ≤ 3 ∧
    (∃ t, displayedSources l ++ t = l) ∧
    List.Pairwise distLE (displayedSources l) := by
  refine ⟨?_, ⟨l.drop 3, l.take_append_drop 3⟩, ?_⟩
  · exact l.length_take_le 3
  · exact hsorted.sublist (l.take_sublist 3)

/-- Witness for `displayed_sources_spec` on a concrete two-source list sorted
by ascending distance. -/
theorem displayed_sources_spec_witness :
    (displayedSources
        [⟨some "a", none, some (1/10), none⟩, ⟨some "b", none, some (1/2), none⟩]).length ≤ 3 ∧
    (∃ t, displayedSources
        [⟨some "a", none, some (1/10), none⟩, ⟨some "b", none, some (1/2), none⟩] ++ t =
        [⟨some "a", none, some (1/10), none⟩, ⟨some "b", none, some (1/2), none⟩]) ∧
    List.Pairwise distLE (displayedSources
        [⟨some "a", none, some (1/10), none⟩, ⟨some "b", none, some (1/2), none⟩]) :=
  displayed_sources_spec _ (by
    refine List.Pairwise.cons ?_ (List.pairwise_singleton _ _)
    intro b hb
    rw [List.mem_singleton] at hb
    subst hb
    unfold distLE distOrZero
    norm_num)

/-- Claim C3: a message whose text is empty or whitespace-only after trimming
is rejected before entering the pipeline: the handler issues no request and
leaves the state untouched, and the Send button is disabled. -/
theorem blank_input_rejected (st : AppState) (now : ℕ) (outcome : FetchOutcome)
    (h : jsTrim st.inputValue = "") :
    handleSendMessage st now outcome = (st, none) ∧ sendDisabled st = true := by
  constructor
  · unfold handleSendMessage
    rw [if_pos (Or.inl h)]
  · simp [sendDisabled, h]

/-- Witness for `blank_input_rejected` on a whitespace-only input. -/
theorem blank_input_rejected_witness :
    handleSendMessage ⟨[], "   ", false⟩ 0 .notOk = (⟨[], "   ", false⟩, none) ∧
    sendDisabled ⟨[], "   ", false⟩ = true :=
  blank_input_rejected ⟨[], "   ", false⟩ 0 .notOk (by decide)

/-- Claim C4: when the fetch fails (network error or non-ok response) the
user receives the fixed connectivity-error message, distinct from the REFUSE
message, and the response path still completes: the loading flag is false
after the handler on every outcome. -/
theorem fetch_failure_fixed_message (st : AppState) (now : ℕ) (outcome : FetchOutcome)
    (hin : ¬ jsTrim st.inputValue = "") (hload : st.isLoading = false) :
    (handleSendMessage st now outcome).1.isLoading = false ∧
    connectivityErrorText ≠ refuseText ∧
    ((outcome = .notOk ∨ outcome = .networkError) →
      (handleSendMessage st now outcome).1.messages =
        st.messages ++
          [{ id := now, text := st.inputValue, sender := .user, sources := [] },
           { id := now + 1, text := connectivityErrorText, sender := .bot, sources := [] }]) := by
  have hguard : ¬ (jsTrim st.inputValue = "" ∨ st.isLoading = true) := by
    rintro (h | h)
    · exact hin h
    · rw [hload] at h
      exact Bool.false_ne_true h
  unfold handleSendMessage
  rw [if_neg hguard]
  cases outcome with
  | ok resp srcs =>
      refine ⟨rfl, by decide, ?_⟩
      rintro (h | h) <;> cases h
  | notOk =>
      exact ⟨rfl, by decide, fun _ => by simp⟩
  | networkError =>
      exact ⟨rfl, by decide, fun _ => by simp⟩

/-- Witness for `fetch_failure_fixed_message` on a non-ok response to the
input "hi" from the initial state. -/
theorem fetch_failure_fixed_message_witness :
    (handleSendMessage ⟨[], "hi", false⟩ 0 .notOk).1.isLoading = false ∧
    connectivityErrorText ≠ refuseText ∧
    ((FetchOutcome.notOk = FetchOutcome.notOk ∨ FetchOutcome.notOk = FetchOutcome.networkError) →
      (handleSendMessage ⟨[], "hi", false⟩ 0 .notOk).1.messages =
        [] ++
          [{ id := 0, text := "hi", sender := .user, sources := [] },
           { id := 0 + 1, text := connectivityErrorText, sender := .bot, sources := [] }]) :=
  fetch_failure_fixed_message ⟨[], "hi", false⟩ 0 .notOk (by decide) rfl

/-- Claim C5 (counterexample): the request body carries the field
`max_results`, which is outside the spec's field set {message, session_id,
include_debug}, and carries neither `session_id` nor `include_debug`. -/
theorem request_extra_field :
    "max_results" ∈ chatRequestFields ∧
    "max_results" ∉ (["message", "session_id", "include_debug"] : List String) ∧
    "session_id" ∉ chatRequestFields ∧
    "include_debug" ∉ chatRequestFields := by
  decide

/-- Claim C5 (amended): every request the handler issues consists of exactly
the fields `message`, holding the input text, and `max_results`, holding the
constant 5; `session_id` and `include_debug` are never sent. -/
theorem request_fields_exact (st : AppState) (now : ℕ) (outcome : FetchOutcome)
    (req : ChatRequest) (h : (handleSendMessage st now outcome).2 = some req) :
    req.message = st.inputValue ∧ req.max_results = 5 ∧
    chatRequestFields = ["message", "max_results"] := by
  unfold handleSendMessage at h
  by_cases hg : jsTrim st.inputValue = "" ∨ st.isLoading = true
  · rw [if_pos hg] at h
    cases h
  · rw [if_neg hg] at h
    cases outcome with
    | ok resp srcs =>
        have h2 : some (mkChatRequest st.inputValue) = some req := h
        cases Option.some.inj h2
        exact ⟨rfl, rfl, rfl⟩
    | notOk =>
        have h2 : some (mkChatRequest st.inputValue) = some req := h
        cases Option.some.inj h2
        exact ⟨rfl, rfl, rfl⟩
    | networkError =>
        have h2 : some (mkChatRequest st.inputValue) = some req := h
        cases Option.some.inj h2
        exact ⟨rfl, rfl, rfl⟩

/-- Witness for `request_fields_exact` on the request issued for the input
"hi" from the initial state. -/
theorem request_fields_exact_witness :
    ({ message := "hi", max_results := 5 } : ChatRequest).message = "hi" ∧
    ({ message := "hi", max_results := 5 } : ChatRequest).max_results = 5 ∧
    chatRequestFields = ["message", "max_results"] :=
  request_fields_exact ⟨[], "hi", false⟩ 0 .notOk { message := "hi", max_results := 5 } (by decide)

/-- Claim C6 (counterexample): on a failing completion call the handler
issues exactly one request — there is no retry, so the total number of
attempts is 1, not the 2 that one initial attempt plus one retry would
give. -/
theorem no_retry_single_attempt :
    fetchAttempts ⟨[], "hi", false⟩ 0 .networkError = 1 ∧
    ¬ fetchAttempts ⟨[], "hi", false⟩ 0 .networkError = 2 := by
  decide

/-- Claim C6 (amended): when the completion call fails, the handler has made
exactly one attempt (no retry, no backoff) and fails directly to the fixed
connectivity-error message. -/
theorem single_attempt_then_error (st : AppState) (now : ℕ)
    (hin : ¬ jsTrim st.inputValue = "") (hload : st.isLoading = false) :
    fetchAttempts st now .networkError = 1 ∧
    (handleSendMessage st now .networkError).1.messages =
      st.messages ++
        [{ id := now, text := st.inputValue, sender := .user, sources := [] },
         { id := now + 1, text := connectivityErrorText, sender := .bot, sources := [] }] := by
  have hguard : ¬ (jsTrim st.inputValue = "" ∨ st.isLoading = true) := by
    rintro (h | h)
    · exact hin h
    · rw [hload] at h
      exact Bool.false_ne_true h
  constructor
  · unfold fetchAttempts handleSendMessage
    rw [if_neg hguard]
  · unfold handleSendMessage
    rw [if_neg hguard]
    simp

/-- Witness for `single_attempt_then_error` on the input "hi" from the
initial state. -/
theorem single_attempt_then_error_witness :
    fetchAttempts ⟨[], "hi", false⟩ 0 .networkError = 1 ∧
    (handleSendMessage ⟨[], "hi", false⟩ 0 .networkError).1.messages =
      [] ++
        [{ id := 0, text := "hi", sender := .user, sources := [] },
         { id := 0 + 1, text := connectivityErrorText, sender := .bot, sources := [] }] :=
  single_attempt_then_error ⟨[], "hi", false⟩ 0 (by decide) rfl

/-- Claim C7: when retrieval is empty the confidence score is exactly 0, the
fallback state is REFUSE, and the assembled answer has confidence 0, empty
sources, and skips the completion service.  The scorer, policy and assembly
are modelled from the spec, as the backend is not part of the repository. -/
theorem empty_retrieval_refuses (k : ℕ) (topic : String) (completionText : String) :
    score k [] = 0 ∧
    fallbackState (score k []) (List.isEmpty ([] : List RetrievedPassage)) topic =
      .REFUSE ∧
    (assembleAnswer k [] topic completionText).confidence = 0 ∧
    (assembleAnswer k [] topic completionText).sources = [] ∧
    (assembleAnswer k [] topic completionText).usedCompletion = false := by
  have hs : score k [] = 0 := rfl
  have hf : fallbackState (score k []) (List.isEmpty ([] : List RetrievedPassage)) topic =
      .REFUSE := by
    unfold fallbackState
    exact if_pos (Or.inr (Or.inl rfl))
  have ha : assembleAnswer k [] topic completionText =
      { response_text := refuseText, confidence := 0, sources := [], usedCompletion := false } := by
    unfold assembleAnswer
    rw [hs] at hf ⊢
    rw [if_pos hf]
  exact ⟨hs, hf, by rw [ha], by rw [ha], by rw [ha]⟩

/-- Claim C8: the message history is append-only — for every state, timestamp
and fetch outcome, the handler's resulting message list extends the previous
one at the end, leaving every previously appended message in place. -/
theorem messages_append_only (st : AppState) (now : ℕ) (outcome : FetchOutcome) :
    ∃ t, (handleSendMessage st now outcome).1.messages = st.messages ++ t := by
  unfold handleSendMessage
  by_cases hg : jsTrim st.inputValue = "" ∨ st.isLoading = true
  · rw [if_pos hg]
    exact ⟨[], by simp⟩
  · rw [if_neg hg]
    cases outcome with
    | ok resp srcs =>
        exact ⟨[{ id := now, text := st.inputValue, sender := .user, sources := [] },
                { id := now + 1, text := resp, sender := .bot, sources := srcs.getD [] }],
               by simp⟩
    | notOk =>
        exact ⟨[{ id := now, text := st.inputValue, sender := .user, sources := [] },
                { id := now + 1, text := connectivityErrorText, sender := .bot, sources := [] }],
               by simp⟩
    | networkError =>
        exact ⟨[{ id := now, text := st.inputValue, sender := .user, sources := [] },
                { id := now + 1, text := connectivityErrorText, sender := .bot, sources := [] }],
               by simp⟩

end Inceptia
